import Mathlib

/-!
Verification of the chat-orchestration layer of this repository.

The development shallowly embeds the two source files:
* `src/glmtuner/chat/stream_chat.py` — the `ChatModel` class with
  `get_prompt`, `process_args`, `chat` and `stream_chat`;
* `src/glmtuner/webui/components/top.py` — the declarative widget wiring
  of `create_top`.

External collaborators (model loader, HF tokenizer/generate, the
`TextIteratorStreamer`, gradio callbacks) are represented as abstract
parameters of the embedded `ChatModel`, or — where the specification is
the only description available — by definitions marked
`Modelled from the spec:`.

Python identifiers that clash with Lean keywords are renamed:
the Python parameter `prefix` is `pfx` here, and the attribute
`source_prefix` is `srcPfx`.
-/

namespace GlmTuner

/-- The per-turn template string
`"[Round {}]\n\n问：{}\n\n答：{}\n\n".format(i+1, old_query, response)`
from `ChatModel.get_prompt`, with the round number already instantiated. -/
def roundFmt (n : Nat) (q r : String) : String :=
  "[Round " ++ toString n ++ "]\n\n问：" ++ q ++ "\n\n答：" ++ r ++ "\n\n"

/-- The final-block template string
`"[Round {}]\n\n问：{}\n\n答：".format(len(history)+1, query)`
from `ChatModel.get_prompt`: a round block with no response text. -/
def finalFmt (n : Nat) (q : String) : String :=
  "[Round " ++ toString n ++ "]\n\n问：" ++ q ++ "\n\n答："

/-- The `for i, (old_query, response) in enumerate(history)` loop of
`ChatModel.get_prompt`: accumulates one `roundFmt` block per history turn
onto the accumulator, `i` being the 0-based enumeration index. -/
def roundLoop : List (String × String) → Nat → String → String
  | [], _, acc => acc
  | (q, r) :: rest, i, acc => roundLoop rest (i + 1) (acc ++ roundFmt (i + 1) q r)

/-- `ChatModel.get_prompt(query, history=None, prefix=None)`.
The Python `prefix + "\n" if prefix else ""` and
`history if history else []` truthiness tests are rendered explicitly:
`none` and the empty string/list coincide, as in Python. -/
def get_prompt (query : String) (history : Option (List (String × String)))
    (pfx : Option String) : String :=
  let pfxSep : String :=
    match pfx with
    | some s => if s = "" then "" else s ++ "\n"
    | none => ""
  let hist : List (String × String) :=
    match history with
    | some l => l
    | none => []
  let prompt := roundLoop hist 0 ""
  let prompt := prompt ++ finalFmt (hist.length + 1) query
  pfxSep ++ prompt

/-- The prefix part of the assembled prompt: empty for an absent or empty
prefix, otherwise the prefix followed by exactly one newline. -/
def pfxPart (pfx : Option String) : String :=
  match pfx with
  | some s => if s = "" then "" else s ++ "\n"
  | none => ""

/-- The canonical list of completed round blocks for a history, numbered
consecutively starting from `n`. -/
def blocksList : List (String × String) → Nat → List String
  | [], _ => []
  | (q, r) :: rest, n => roundFmt n q r :: blocksList rest (n + 1)

/-- Concatenation of a list of strings. -/
def joinAll (l : List String) : String :=
  l.foldr (fun a b => a ++ b) ""

/-! ## Generation configuration (`ChatModel.process_args`) -/

/-- The keys of the generation-configuration dictionary that
`ChatModel.process_args` reads or writes: `temperature`, `top_p`, `top_k`,
`repetition_penalty`, `max_length`, `max_new_tokens`, `input_ids`,
`logits_processor`. -/
inductive GKey
  | temperature
  | topP
  | topK
  | repPenalty
  | maxLen
  | maxNew
  | inputIds
  | logitsProc
  deriving DecidableEq

/-- A value stored in the generation-configuration dictionary: a number,
a token-id tensor (`input_ids`), or the logits-processor object. -/
inductive GVal
  | num (v : Int)
  | ids (l : List Nat)
  | proc
  deriving DecidableEq

/-- The generation-configuration dictionary: a partial map from keys to
values (`none` means the key is absent). -/
def GenMap := GKey → Option GVal

/-- `d[k] = v` on the configuration dictionary. -/
def GenMap.set (m : GenMap) (k : GKey) (v : GVal) : GenMap :=
  fun k2 => if k2 = k then some v else m k2

/-- `d.pop(k, None)` on the configuration dictionary (only the removal;
the popped value is never used by the source at these call sites). -/
def GenMap.pop (m : GenMap) (k : GKey) : GenMap :=
  fun k2 => if k2 = k then none else m k2

/-- Numeric read `d[k]`, as used for `gen_kwargs["temperature"]` etc.;
the modelled defaults dictionary always carries numbers at those keys. -/
def GenMap.getNum (m : GenMap) (k : GKey) : Int :=
  match m k with
  | some (.num v) => v
  | _ => 0

/-- Modelled from the spec: `GeneratingArguments` (from `glmtuner.hparams`,
not part of the excerpt). Per §3 "Generation Configuration" it is a
configuration object whose dictionary form supplies defaults for
temperature, nucleus-sampling threshold, top-k and repetition penalty,
and possibly one of the two length controls. -/
structure GenArgs where
  temperature : Int
  topP : Int
  topK : Int
  repPenalty : Int
  maxLenDefault : Option Int
  maxNewDefault : Option Int
  deriving DecidableEq

/-- `GeneratingArguments.to_dict()`: the session-level defaults as a
configuration dictionary. -/
def GenArgs.toDict (g : GenArgs) : GenMap :=
  fun k =>
    match k with
    | .temperature => some (.num g.temperature)
    | .topP => some (.num g.topP)
    | .topK => some (.num g.topK)
    | .repPenalty => some (.num g.repPenalty)
    | .maxLen => g.maxLenDefault.map GVal.num
    | .maxNew => g.maxNewDefault.map GVal.num
    | .inputIds => none
    | .logitsProc => none

/-- The embedded `ChatModel` session: the loaded tokenizer (`encode`,
`decode`), the generation routine (`generate`, returning the full token
sequence, prompt included, as HF `generate` does), the streaming
fragment producer of the third-party `TextIteratorStreamer`
(`streamChunks`), the session generation defaults and the session source
prefix (`self.source_prefix`, renamed `srcPfx`). -/
structure ChatModel where
  encode : String → List Nat
  decode : List Nat → Bool → String
  generate : GenMap → List Nat
  streamChunks : List Nat → List String
  genArgs : GenArgs
  srcPfx : String

/-- `ChatModel.__init__`, restricted to the state the claims touch:
`self.source_prefix = data_args.source_prefix if data_args.source_prefix
else ""` (line 30); loading/dispatching the model is external. -/
def mkChatModel (enc : String → List Nat) (dec : List Nat → Bool → String)
    (gen : GenMap → List Nat) (chunks : List Nat → List String)
    (ga : GenArgs) (dataSrcPfx : Option String) : ChatModel :=
  { encode := enc, decode := dec, generate := gen, streamChunks := chunks,
    genArgs := ga,
    srcPfx :=
      match dataSrcPfx with
      | some s => if s = "" then "" else s
      | none => "" }

/-- Caller overrides `**input_kwargs`: a keyword-argument dictionary,
kept as a list in the order the caller supplied the keywords. -/
def Kwargs := List (GKey × Int)

/-- `input_kwargs.pop(k, None)`: the value at the first occurrence of `k`
(or `none`), together with the dictionary with that entry removed. -/
def popKw (k : GKey) : List (GKey × Int) → Option Int × List (GKey × Int)
  | [] => (none, [])
  | (k2, v) :: rest =>
      if k2 = k then (some v, rest)
      else
        ((popKw k rest).1, (k2, v) :: (popKw k rest).2)

/-- First value supplied for key `k`, if any. -/
def findKw (k : GKey) : List (GKey × Int) → Option Int
  | [] => none
  | (k2, v) :: rest => if k2 = k then some v else findKw k rest

/-- Python `x or d` for `x` an optional number: `None` and `0` are falsy
and fall back to `d`. -/
def pyOr (v : Option Int) (d : Int) : Int :=
  match v with
  | some x => if x = 0 then d else x
  | none => d

/-- One length-control branch of `process_args`:
`if v: gen_kwargs.pop(popKey, None); gen_kwargs[setKey] = v`
(a supplied `0` or `None` is falsy and leaves the dictionary unchanged). -/
def applyMaxOverride (gk : GenMap) (v : Option Int) (popKey setKey : GKey) : GenMap :=
  match v with
  | some x => if x = 0 then gk else (gk.pop popKey).set setKey (.num x)
  | none => gk

/-- `prefix if prefix else self.source_prefix` (line 48): an absent or
empty caller prefix falls back to the session source prefix. -/
def resolvePfx (m : ChatModel) (pfx : Option String) : String :=
  match pfx with
  | some s => if s = "" then m.srcPfx else s
  | none => m.srcPfx

/-- `ChatModel.process_args`: resolves the prefix, tokenizes the
assembled prompt, pops the six recognized overrides, merges them over
the session defaults (`update` with the Python `or` fallbacks), attaches
`input_ids` and the logits processor, applies the two length-control
branches in their textual order and returns the resolved configuration
with the prompt token count. -/
def process_args (m : ChatModel) (query : String)
    (history : Option (List (String × String))) (pfx : Option String)
    (kwargs : List (GKey × Int)) : GenMap × Nat :=
  let pfxR := resolvePfx m pfx
  let ids := m.encode (get_prompt query history (some pfxR))
  let promptLength := ids.length
  let t1 := popKw .temperature kwargs
  let t2 := popKw .topP t1.2
  let t3 := popKw .topK t2.2
  let t4 := popKw .repPenalty t3.2
  let t5 := popKw .maxLen t4.2
  let t6 := popKw .maxNew t5.2
  let base := m.genArgs.toDict
  let gk :=
    (((((base.set .inputIds (.ids ids)).set .temperature
        (.num (pyOr t1.1 (base.getNum .temperature)))).set .topP
        (.num (pyOr t2.1 (base.getNum .topP)))).set .topK
        (.num (pyOr t3.1 (base.getNum .topK)))).set .repPenalty
        (.num (pyOr t4.1 (base.getNum .repPenalty)))).set .logitsProc .proc
  let gk := applyMaxOverride gk t5.1 .maxNew .maxLen
  let gk := applyMaxOverride gk t6.1 .maxLen .maxNew
  (gk, promptLength)

/-- The merged configuration before the two length-control branches,
written with the overrides looked up in the original keyword dictionary. -/
def baseGk (m : ChatModel) (query : String)
    (history : Option (List (String × String))) (pfx : Option String)
    (kwargs : List (GKey × Int)) : GenMap :=
  let ids := m.encode (get_prompt query history (some (resolvePfx m pfx)))
  let base := m.genArgs.toDict
  (((((base.set .inputIds (.ids ids)).set .temperature
      (.num (pyOr (findKw .temperature kwargs) (base.getNum .temperature)))).set .topP
      (.num (pyOr (findKw .topP kwargs) (base.getNum .topP)))).set .topK
      (.num (pyOr (findKw .topK kwargs) (base.getNum .topK)))).set .repPenalty
      (.num (pyOr (findKw .repPenalty kwargs) (base.getNum .repPenalty)))).set .logitsProc .proc

/-! ## `chat` and `stream_chat` -/

/-- `ChatModel.chat`: runs generation to completion, slices the output
after the prompt boundary, decodes the slice stripping special tokens,
and returns the response with the (prompt, response) token counts. -/
def chat (m : ChatModel) (query : String)
    (history : Option (List (String × String))) (pfx : Option String)
    (kwargs : List (GKey × Int)) : String × (Nat × Nat) :=
  let r := process_args m query history pfx kwargs
  let genKwargs := r.1
  let promptLength := r.2
  let generationOutput := m.generate genKwargs
  let outputs := generationOutput.drop promptLength
  let response := m.decode outputs true
  let responseLength := outputs.length
  (response, (promptLength, responseLength))

/-- The configuration of the hand-off streamer built by `stream_chat`:
`TextIteratorStreamer(self.tokenizer, timeout=60.0, skip_prompt=True,
skip_special_tokens=True)`. -/
structure StreamerCfg where
  timeout : Nat
  skipPrompt : Bool
  skipSpecial : Bool
  deriving DecidableEq

/-- The streamer configuration literal on line 98 of the source. -/
def streamChatCfg : StreamerCfg :=
  { timeout := 60, skipPrompt := true, skipSpecial := true }

/-- `input_ids` carried inside a resolved configuration. -/
def GenMap.getIds (m : GenMap) : List Nat :=
  match m .inputIds with
  | some (.ids l) => l
  | _ => []

/-- `ChatModel.stream_chat`: resolves the configuration, hands it with
the streamer to the background `model.generate` call, and drains the
streamer. The third-party `TextIteratorStreamer` is modelled from the
spec: with `skip_prompt` set it drops the prompt tokens and turns the
newly generated span into the fragment sequence of the session
(`m.streamChunks`); its queue timeout is modelled separately below. -/
def stream_chat (m : ChatModel) (query : String)
    (history : Option (List (String × String))) (pfx : Option String)
    (kwargs : List (GKey × Int)) : List String :=
  let genKwargs := (process_args m query history pfx kwargs).1
  let cfg := streamChatCfg
  let out := m.generate genKwargs
  let toks := if cfg.skipPrompt then out.drop genKwargs.getIds.length else out
  m.streamChunks toks

/-- Outcome of one wait on the hand-off channel. -/
inductive StreamWait
  | fragment (s : String)
  | timedOut
  deriving DecidableEq

/-- Modelled from the spec: the per-fragment wait of the hand-off
channel (the queue inside the third-party `TextIteratorStreamer`, not in
the excerpt). `sched u` is what the background generation unit has made
available at logical time `u`; the consumer inspects successive instants
and gives up once the remaining budget is exhausted, surfacing a timeout
failure instead of blocking indefinitely. -/
def recvFrom (sched : Nat → Option String) : Nat → Nat → StreamWait
  | 0, now =>
      match sched now with
      | some s => .fragment s
      | none => .timedOut
  | r + 1, now =>
      match sched now with
      | some s => .fragment s
      | none => recvFrom sched r (now + 1)

/-- One wait on a channel configured by `cfg`, starting at time 0. -/
def channelRecv (cfg : StreamerCfg) (sched : Nat → Option String) : StreamWait :=
  recvFrom sched cfg.timeout 0

/-! ## Configuration-panel wiring (`create_top`) -/

/-- The interactive fields declared by `create_top`
(`source_prefix` is renamed `srcPfxBox`). -/
inductive WidgetId
  | lang
  | modelName
  | modelPath
  | finetuningType
  | checkpoints
  | refreshBtn
  | quantizationBit
  | srcPfxBox
  deriving DecidableEq

/-- The callback functions the wiring binds (from `glmtuner.webui.common`
and `glmtuner.webui.utils`, external to the excerpt; only their identity
matters to the wiring). -/
inductive Callback
  | getModelPath
  | listCheckpoint
  | saveConfig
  | canQuantize
  deriving DecidableEq

/-- One handler registration: a callback with its declared input and
output fields. -/
structure Handler where
  fn : Callback
  inputs : List WidgetId
  outputs : List WidgetId
  deriving DecidableEq

/-- Event kinds used by the wiring. -/
inductive Ev
  | change
  | click
  deriving DecidableEq

/-- One event binding: the field it listens on, the event kind, and the
chain of handlers run in order (`.then` chaining). -/
structure Binding where
  widget : WidgetId
  event : Ev
  handlers : List Handler
  deriving DecidableEq

/-- The event bindings of `create_top`, in source order: model-name
change resolves the path then refreshes checkpoints; model-path change
persists the config; fine-tuning-method change refreshes checkpoints
then recomputes the quantization-bit choice; the refresh button
recomputes checkpoints. -/
def create_top : List Binding :=
  [ { widget := .modelName, event := .change,
      handlers :=
        [ { fn := .getModelPath, inputs := [.modelName], outputs := [.modelPath] },
          { fn := .listCheckpoint, inputs := [.modelName, .finetuningType],
            outputs := [.checkpoints] } ] },
    { widget := .modelPath, event := .change,
      handlers :=
        [ { fn := .saveConfig, inputs := [.modelName, .modelPath], outputs := [] } ] },
    { widget := .finetuningType, event := .change,
      handlers :=
        [ { fn := .listCheckpoint, inputs := [.modelName, .finetuningType],
            outputs := [.checkpoints] },
          { fn := .canQuantize, inputs := [.finetuningType],
            outputs := [.quantizationBit] } ] },
    { widget := .refreshBtn, event := .click,
      handlers :=
        [ { fn := .listCheckpoint, inputs := [.modelName, .finetuningType],
            outputs := [.checkpoints] } ] } ]

/-! ## A concrete session used for witnesses and counterexamples -/

/-- A small concrete session: the tokenizer encodes a string as the
range of its length, decoding concatenates decimal token values (so
fragment concatenation matches decoding), generation echoes the prompt
ids and appends three tokens, and the defaults dictionary carries a
`max_new_tokens` default. -/
def demoModel : ChatModel :=
  { encode := fun s => List.range s.length,
    decode := fun toks _ => joinAll (toks.map (fun n => toString n)),
    generate := fun gk => gk.getIds ++ [7, 8, 9],
    streamChunks := fun toks => toks.map (fun n => toString n),
    genArgs :=
      { temperature := 95, topP := 7, topK := 50, repPenalty := 1,
        maxLenDefault := none, maxNewDefault := some 128 },
    srcPfx := "" }

/-! ## Supporting lemmas for the claims -/

/-- The first round block of the assembled prompt body: the round-1
history block, or the final block when the history is empty. -/
def firstBlock (hist : List (String × String)) (query : String) : String :=
  match hist with
  | [] => finalFmt 1 query
  | (q, r) :: _ => roundFmt 1 q r

/-! ## The claims -/

/-! ## Theorems -/

/-- String-append associativity (not available under this name in this
library of this toolchain); proved from the underlying character lists. -/
theorem strAppendAssoc (a b c : String) : (a ++ b) ++ c = a ++ (b ++ c) := by
  apply String.ext
  simp [String.data_append, List.append_assoc]

theorem joinAll_cons (a : String) (l : List String) :
    joinAll (a :: l) = a ++ joinAll l := rfl

/-- `roundLoop` starting at index `i` with accumulator `acc` appends
exactly the round blocks numbered from `i + 1` on. -/
theorem roundLoop_eq (hist : List (String × String)) :
    ∀ (i : Nat) (acc : String),
      roundLoop hist i acc = acc ++ joinAll (blocksList hist (i + 1)) := by
  induction hist with
  | nil =>
      intro i acc
      simp [roundLoop, blocksList, joinAll]
  | cons hd tl ih =>
      intro i acc
      obtain ⟨q, r⟩ := hd
      rw [roundLoop, ih, blocksList, joinAll_cons, strAppendAssoc]

/-- Claim C1: for every query, history of N turns and prefix, the string
returned by `get_prompt` decomposes as the prefix part, then exactly N
completed round blocks numbered 1..N in history order, then the final
block numbered N+1 built from the new query with no response text. -/
theorem get_prompt_round_blocks (query : String)
    (hist : List (String × String)) (pfx : Option String) :
    get_prompt query (some hist) pfx =
      pfxPart pfx ++ (joinAll (blocksList hist 1) ++ finalFmt (hist.length + 1) query)
    ∧ (blocksList hist 1).length = hist.length := by
  constructor
  · show pfxPart pfx ++ (roundLoop hist 0 "" ++ finalFmt (hist.length + 1) query) = _
    rw [roundLoop_eq]
    simp
  · induction hist with
    | nil => rfl
    | cons hd tl ih =>
        obtain ⟨q, r⟩ := hd
        show (roundFmt 1 q r :: blocksList tl 2).length = tl.length + 1
        simp only [List.length_cons]
        clear ih
        have general : ∀ (l : List (String × String)) (n : Nat),
            (blocksList l n).length = l.length := by
          intro l
          induction l with
          | nil => intro n; rfl
          | cons h2 t2 ih2 =>
              intro n
              obtain ⟨q2, r2⟩ := h2
              show (blocksList t2 (n + 1)).length + 1 = t2.length + 1
              rw [ih2]
        rw [general]

theorem popKw_fst (k : GKey) (l : List (GKey × Int)) :
    (popKw k l).1 = findKw k l := by
  induction l with
  | nil => rfl
  | cons hd tl ih =>
      obtain ⟨k2, v⟩ := hd
      by_cases h : k2 = k
      · simp [popKw, findKw, h]
      · simp [popKw, findKw, h, ih]

theorem findKw_pop (k k2 : GKey) (l : List (GKey × Int)) (h : k ≠ k2) :
    findKw k (popKw k2 l).2 = findKw k l := by
  induction l with
  | nil => rfl
  | cons hd tl ih =>
      obtain ⟨k3, v⟩ := hd
      by_cases h3 : k3 = k2
      · subst h3
        simp [popKw, findKw, Ne.symm h]
      · by_cases h4 : k3 = k
        · subst h4
          simp [popKw, findKw, h3]
        · simp [popKw, findKw, h3, h4, ih]

/-- `process_args` in normal form: the merged base configuration with
the two length-control branches applied (max-length branch first, then
max-new-tokens branch), and the prompt token count. -/
theorem process_args_eq (m : ChatModel) (query : String)
    (history : Option (List (String × String))) (pfx : Option String)
    (kwargs : List (GKey × Int)) :
    process_args m query history pfx kwargs =
      (applyMaxOverride
        (applyMaxOverride (baseGk m query history pfx kwargs)
          (findKw .maxLen kwargs) .maxNew .maxLen)
        (findKw .maxNew kwargs) .maxLen .maxNew,
       (m.encode (get_prompt query history (some (resolvePfx m pfx)))).length) := by
  unfold process_args baseGk
  simp [popKw_fst, findKw_pop]

theorem GenMap.set_same (m : GenMap) (k : GKey) (v : GVal) :
    (m.set k v) k = some v := by
  simp [GenMap.set]

theorem GenMap.set_other (m : GenMap) (k : GKey) (v : GVal) (k2 : GKey)
    (h : k2 ≠ k) : (m.set k v) k2 = m k2 := by
  simp [GenMap.set, h]

theorem GenMap.pop_same (m : GenMap) (k : GKey) : (m.pop k) k = none := by
  simp [GenMap.pop]

theorem GenMap.pop_other (m : GenMap) (k : GKey) (k2 : GKey) (h : k2 ≠ k) :
    (m.pop k) k2 = m k2 := by
  simp [GenMap.pop, h]

theorem recvFrom_timedOut (sched : Nat → Option String) :
    ∀ (r now : Nat), (∀ u, u ≤ now + r → sched u = none) →
      recvFrom sched r now = .timedOut := by
  intro r
  induction r with
  | zero =>
      intro now h
      simp [recvFrom, h now (by omega)]
  | succ n ih =>
      intro now h
      rw [recvFrom, h now (by omega)]
      exact ih (now + 1) (fun u hu => h u (by omega))

theorem strEmptyAppend (s : String) : "" ++ s = s := by
  apply String.ext
  simp [String.data_append]

theorem strAppendEmpty (s : String) : s ++ "" = s := by
  apply String.ext
  simp [String.data_append]

/-- The body of the prompt (no prefix): the round blocks from 1 followed
by the final block. -/
theorem get_prompt_none (query : String) (hist : List (String × String)) :
    get_prompt query (some hist) none =
      joinAll (blocksList hist 1) ++ finalFmt (hist.length + 1) query := by
  show "" ++ (roundLoop hist 0 "" ++ finalFmt (hist.length + 1) query) = _
  rw [strEmptyAppend, roundLoop_eq hist 0 "", strEmptyAppend]

theorem applyMax_preserve (gk : GenMap) (v : Option Int) (popKey setKey k : GKey)
    (h1 : k ≠ popKey) (h2 : k ≠ setKey) :
    applyMaxOverride gk v popKey setKey k = gk k := by
  cases v with
  | none => rfl
  | some x =>
      by_cases hx : x = 0 <;>
        simp [applyMaxOverride, hx, GenMap.set, GenMap.pop, h1, h2]

theorem baseGk_inputIds (m : ChatModel) (query : String)
    (history : Option (List (String × String))) (pfx : Option String)
    (kwargs : List (GKey × Int)) :
    baseGk m query history pfx kwargs .inputIds
      = some (.ids (m.encode (get_prompt query history (some (resolvePfx m pfx))))) := by
  simp [baseGk, GenMap.set]

theorem baseGk_decoding_key (m : ChatModel) (query : String)
    (history : Option (List (String × String))) (pfx : Option String)
    (kwargs : List (GKey × Int)) (k : GKey)
    (hk : k = .temperature ∨ k = .topP ∨ k = .topK ∨ k = .repPenalty) :
    baseGk m query history pfx kwargs k
      = some (.num (pyOr (findKw k kwargs) (m.genArgs.toDict.getNum k))) := by
  rcases hk with rfl | rfl | rfl | rfl <;> simp [baseGk, GenMap.set]

/-- The resolved configuration agrees with the merged base configuration
on every key other than the two length controls. -/
theorem process_args_other_key (m : ChatModel) (query : String)
    (history : Option (List (String × String))) (pfx : Option String)
    (kwargs : List (GKey × Int)) (k : GKey)
    (h1 : k ≠ .maxNew) (h2 : k ≠ .maxLen) :
    (process_args m query history pfx kwargs).1 k
      = baseGk m query history pfx kwargs k := by
  rw [process_args_eq]
  show applyMaxOverride _ _ _ _ k = _
  rw [applyMax_preserve _ _ _ _ _ h2 h1, applyMax_preserve _ _ _ _ _ h1 h2]

theorem process_args_inputIds (m : ChatModel) (query : String)
    (history : Option (List (String × String))) (pfx : Option String)
    (kwargs : List (GKey × Int)) :
    (process_args m query history pfx kwargs).1 .inputIds
      = some (.ids (m.encode (get_prompt query history (some (resolvePfx m pfx))))) := by
  rw [process_args_other_key _ _ _ _ _ _ (by decide) (by decide), baseGk_inputIds]

theorem process_args_promptLength (m : ChatModel) (query : String)
    (history : Option (List (String × String))) (pfx : Option String)
    (kwargs : List (GKey × Int)) :
    (process_args m query history pfx kwargs).2
      = (m.encode (get_prompt query history (some (resolvePfx m pfx)))).length := by
  rw [process_args_eq]

/-- Claim C2, counterexample: the claim says that of the two length
controls the most recently supplied override wins; supplying
`max_new_tokens=20` first and `max_length=50` second, the claim predicts
a configuration with `max_length=50` only, but the code resolves to
`max_new_tokens=20` only, because the `max_length` branch is always
executed before the `max_new_tokens` branch regardless of supply order. -/
theorem process_args_order_counterexample :
    ((process_args demoModel "Q" none none [(.maxNew, 20), (.maxLen, 50)]).1 .maxNew
        = some (.num 20))
    ∧ ((process_args demoModel "Q" none none [(.maxNew, 20), (.maxLen, 50)]).1 .maxLen
        = none)
    ∧ ¬ ((process_args demoModel "Q" none none [(.maxNew, 20), (.maxLen, 50)]).1 .maxLen
        = some (.num 50)) := by
  decide

/-- Claim C2 (amended): the two length controls are mutually exclusive
in the resolved configuration for every supply order of nonzero caller
overrides: a nonzero `max_length` override with `max_new_tokens` unset
or zero resolves to `max_length` only, and a nonzero `max_new_tokens`
override always wins — also when a nonzero `max_length` is supplied,
whatever the supply order — resolving to `max_new_tokens` only. -/
theorem process_args_max_exclusive (m : ChatModel) (query : String)
    (history : Option (List (String × String))) (pfx : Option String)
    (kwargs : List (GKey × Int)) (v : Int) :
    (findKw .maxLen kwargs = some v → v ≠ 0 →
      (findKw .maxNew kwargs = none ∨ findKw .maxNew kwargs = some 0) →
      (process_args m query history pfx kwargs).1 .maxLen = some (.num v)
      ∧ (process_args m query history pfx kwargs).1 .maxNew = none)
    ∧ (findKw .maxNew kwargs = some v → v ≠ 0 →
      (process_args m query history pfx kwargs).1 .maxNew = some (.num v)
      ∧ (process_args m query history pfx kwargs).1 .maxLen = none) := by
  rw [process_args_eq]
  constructor
  · intro hl hv hn
    rcases hn with hn | hn <;>
      simp [hl, hn, hv, applyMaxOverride, GenMap.set, GenMap.pop]
  · intro hn hv
    simp [hn, hv, applyMaxOverride, GenMap.set, GenMap.pop]

/-- Witness for the amended Claim C2 at the scenario of the spec: overrides
`max_length=50` then `max_new_tokens=20` resolve to `max_new_tokens=20`
only. -/
theorem process_args_max_exclusive_witness :
    (process_args demoModel "Q" none none [(.maxLen, 50), (.maxNew, 20)]).1 .maxNew
        = some (.num 20)
    ∧ (process_args demoModel "Q" none none [(.maxLen, 50), (.maxNew, 20)]).1 .maxLen
        = none :=
  (process_args_max_exclusive demoModel "Q" none none [(.maxLen, 50), (.maxNew, 20)] 20).2
    (by decide) (by decide)

/-- Claim C3: with an absent prefix the prompt starts directly with the
first round block (no leading separator); an empty prefix behaves the
same; a non-empty prefix is followed by exactly one newline before the
same prompt body. -/
theorem get_prompt_pfx_separator (query : String) (hist : List (String × String))
    (p : String) :
    (∃ rest, get_prompt query (some hist) none = firstBlock hist query ++ rest)
    ∧ get_prompt query (some hist) (some "") = get_prompt query (some hist) none
    ∧ (p ≠ "" →
        get_prompt query (some hist) (some p)
          = p ++ ("\n" ++ get_prompt query (some hist) none)) := by
  refine ⟨?_, rfl, fun hp => ?_⟩
  · rw [get_prompt_none]
    cases hist with
    | nil =>
        refine ⟨"", ?_⟩
        rw [firstBlock]
        show "" ++ finalFmt 1 query = finalFmt 1 query ++ ""
        rw [strEmptyAppend, strAppendEmpty]
    | cons hd tl =>
        obtain ⟨q, r⟩ := hd
        refine ⟨joinAll (blocksList tl 2) ++ finalFmt (tl.length + 1 + 1) query, ?_⟩
        rw [firstBlock, blocksList, joinAll_cons, strAppendAssoc]
        rfl
  · show (if p = "" then "" else p ++ "\n") ++ _ = _
    rw [if_neg hp, strAppendAssoc]
    rfl

/-- Witness for Claim C3 at the scenario history of the spec, with a concrete
non-empty prefix. -/
theorem get_prompt_pfx_separator_witness :
    get_prompt "B" (some [("A", "1")]) (some "X")
      = "X" ++ ("\n" ++ get_prompt "B" (some [("A", "1")]) none) :=
  (get_prompt_pfx_separator "B" [("A", "1")] "X").2.2 (by decide)

/-- Claim C4: `chat` returns `(response, (promptLen, responseLen))`
where `promptLen` is the tokenized length of the assembled prompt,
`responseLen` is the length of the generated output slice after the
prompt boundary, and `response` decodes exactly that slice with special
tokens stripped. -/
theorem chat_token_accounting (m : ChatModel) (query : String)
    (history : Option (List (String × String))) (pfx : Option String)
    (kwargs : List (GKey × Int)) :
    (chat m query history pfx kwargs).2.1
      = (m.encode (get_prompt query history (some (resolvePfx m pfx)))).length
    ∧ (chat m query history pfx kwargs).2.2
      = ((m.generate (process_args m query history pfx kwargs).1).drop
          (chat m query history pfx kwargs).2.1).length
    ∧ (chat m query history pfx kwargs).1
      = m.decode ((m.generate (process_args m query history pfx kwargs).1).drop
          (chat m query history pfx kwargs).2.1) true := by
  refine ⟨?_, rfl, rfl⟩
  exact process_args_promptLength m query history pfx kwargs

/-- Claim C5: when the fragments of the streamer concatenate to the decoding
of the tokens it was fed (the documented contract of the third-party
text streamer) — generation itself being a deterministic function of the
resolved configuration in this embedding — the concatenation of the
fragments yielded by `stream_chat` equals the response `chat` returns
for the same query, history, prefix and overrides. -/
theorem stream_chat_refines_chat (m : ChatModel) (query : String)
    (history : Option (List (String × String))) (pfx : Option String)
    (kwargs : List (GKey × Int))
    (hstream : ∀ toks : List Nat, joinAll (m.streamChunks toks) = m.decode toks true) :
    joinAll (stream_chat m query history pfx kwargs)
      = (chat m query history pfx kwargs).1 := by
  show joinAll (m.streamChunks _) = _
  rw [hstream]
  unfold GenMap.getIds
  rw [process_args_inputIds]
  show m.decode ((m.generate _).drop _) true
      = m.decode ((m.generate _).drop (process_args m query history pfx kwargs).2) true
  rw [process_args_promptLength]

/-- Witness for Claim C5 on the concrete demo session, whose streamer
decodes one fragment per token. -/
theorem stream_chat_refines_chat_witness :
    joinAll (stream_chat demoModel "Hi" none none [])
      = (chat demoModel "Hi" none none []).1 :=
  stream_chat_refines_chat demoModel "Hi" none none []
    (fun toks => by
      induction toks with
      | nil => rfl
      | cons hd tl ih =>
          show toString hd ++ joinAll (tl.map _) = toString hd ++ joinAll (tl.map _)
          rfl)

/-- Claim C6: the hand-off streamer constructed by `stream_chat` is
configured with a fixed per-fragment wait of 60 time units, and a wait
on a channel so configured during which the background unit produces
nothing surfaces a timeout failure instead of blocking. -/
theorem stream_chat_timeout (sched : Nat → Option String) :
    streamChatCfg.timeout = 60
    ∧ ((∀ u, u ≤ 60 → sched u = none) →
        channelRecv streamChatCfg sched = .timedOut) := by
  refine ⟨rfl, fun h => ?_⟩
  exact recvFrom_timedOut sched 60 0 (fun u hu => h u (by omega))

/-- Witness for Claim C6: a producer that never yields makes the
consumer observe the timeout failure. -/
theorem stream_chat_timeout_witness :
    channelRecv streamChatCfg (fun _ => none) = .timedOut :=
  (stream_chat_timeout (fun _ => none)).2 (fun _ _ => rfl)

/-- Claim C7: each recognized decoding override (temperature, top-p,
top-k, repetition penalty) replaces the session-level default exactly
when supplied nonzero; unset or zero overrides fall back to the
corresponding default of the session generation configuration. -/
theorem process_args_decoding_overrides (m : ChatModel) (query : String)
    (history : Option (List (String × String))) (pfx : Option String)
    (kwargs : List (GKey × Int)) (k : GKey) (v : Int)
    (hk : k = .temperature ∨ k = .topP ∨ k = .topK ∨ k = .repPenalty) :
    ((findKw k kwargs = none ∨ findKw k kwargs = some 0) →
      (process_args m query history pfx kwargs).1 k
        = some (.num (m.genArgs.toDict.getNum k)))
    ∧ (findKw k kwargs = some v → v ≠ 0 →
      (process_args m query history pfx kwargs).1 k = some (.num v)) := by
  have h1 : k ≠ .maxNew := by rcases hk with rfl | rfl | rfl | rfl <;> decide
  have h2 : k ≠ .maxLen := by rcases hk with rfl | rfl | rfl | rfl <;> decide
  rw [process_args_other_key _ _ _ _ _ _ h1 h2, baseGk_decoding_key _ _ _ _ _ _ hk]
  constructor
  · intro hf
    rcases hf with hf | hf <;> rw [hf] <;> simp [pyOr]
  · intro hf hv
    rw [hf]
    simp [pyOr, hv]

/-- Witness for Claim C7: with no overrides, temperature resolves to the
demo session default `95`; supplied nonzero, it replaces the default. -/
theorem process_args_decoding_overrides_witness :
    (process_args demoModel "Q" none none []).1 .temperature = some (.num 95)
    ∧ (process_args demoModel "Q" none none [(.temperature, 42)]).1 .temperature
        = some (.num 42) :=
  ⟨(process_args_decoding_overrides demoModel "Q" none none [] .temperature 0
      (Or.inl rfl)).1 (Or.inl rfl),
   (process_args_decoding_overrides demoModel "Q" none none [(.temperature, 42)]
      .temperature 42 (Or.inl rfl)).2 (by decide) (by decide)⟩

/-- Claim C8: `get_prompt` is a pure total deterministic function of its
inputs (a total Lean function in this embedding); an absent history is
treated exactly as the empty history, an absent prefix exactly as the
empty prefix, and equal inputs give equal outputs. -/
theorem get_prompt_total (query q2 : String)
    (hist h2 : Option (List (String × String))) (p p2 : Option String) :
    get_prompt query none p = get_prompt query (some []) p
    ∧ get_prompt query hist none = get_prompt query hist (some "")
    ∧ (query = q2 → hist = h2 → p = p2 → get_prompt query hist p = get_prompt q2 h2 p2) := by
  refine ⟨rfl, rfl, fun e1 e2 e3 => ?_⟩
  rw [e1, e2, e3]

/-- Witness for Claim C8: determinism instantiated at concrete equal
inputs. -/
theorem get_prompt_total_witness :
    get_prompt "Hello" none none = get_prompt "Hello" none none :=
  (get_prompt_total "Hello" "Hello" none none none none).2.2 rfl rfl rfl

/-- Claim C9: in `create_top`, the fine-tuning-method change event is
bound to exactly two handlers in order — first the checkpoint list is
recomputed from the (model name, method) pair, then the
quantization-bit field is recomputed from the method — and this binding
writes no field other than those two. -/
theorem create_top_method_change :
    create_top.filter (fun b => b.widget == .finetuningType && b.event == .change)
      = [ { widget := .finetuningType, event := .change,
            handlers :=
              [ { fn := .listCheckpoint, inputs := [.modelName, .finetuningType],
                  outputs := [.checkpoints] },
                { fn := .canQuantize, inputs := [.finetuningType],
                  outputs := [.quantizationBit] } ] } ] := by
  decide

/-- Claim C10: an absent or empty caller prefix makes `process_args`
build the prompt with the session source prefix (itself the
construction-time `data_args.source_prefix`, or empty when unset), while
a non-empty caller prefix takes precedence. -/
theorem process_args_session_pfx (m : ChatModel) (query : String)
    (history : Option (List (String × String))) (kwargs : List (GKey × Int))
    (s : String) (p : Option String)
    (enc : String → List Nat) (dec : List Nat → Bool → String)
    (gen : GenMap → List Nat) (chunks : List Nat → List String)
    (ga : GenArgs) (dataSrcPfx : Option String) :
    resolvePfx m none = m.srcPfx
    ∧ resolvePfx m (some "") = m.srcPfx
    ∧ (s ≠ "" → resolvePfx m (some s) = s)
    ∧ (process_args m query history p kwargs).2
        = (m.encode (get_prompt query history (some (resolvePfx m p)))).length
    ∧ (mkChatModel enc dec gen chunks ga dataSrcPfx).srcPfx = dataSrcPfx.getD "" := by
  refine ⟨rfl, ?_, fun hs => ?_, ?_, ?_⟩
  · simp [resolvePfx]
  · simp [resolvePfx, hs]
  · exact process_args_promptLength m query history p kwargs
  · cases dataSrcPfx with
    | none => rfl
    | some s2 =>
        by_cases h : s2 = "" <;> simp [mkChatModel, h, Option.getD]

/-- Witness for Claim C10: a concrete non-empty caller prefix wins over
the session prefix. -/
theorem process_args_session_pfx_witness :
    resolvePfx demoModel (some "inst") = "inst" :=
  (process_args_session_pfx demoModel "Q" none [] "inst" none
      demoModel.encode demoModel.decode demoModel.generate demoModel.streamChunks
      demoModel.genArgs none).2.2.1 (by decide)

end GlmTuner

